import Mathlib

/-!
GameController.hpp: device handle and decode loop

A shallow embedding of `GameControllerBase` and `LogitechF710` from
`src/GameController.hpp`, followed by theorems about the decode loop, the
event count computation, the getters, `cleanup()` and the constructors.

The operating system is an explicit environment: what `open` and the three
`ioctl` queries answer is a `DeviceEnv`, what each `read` answers is a
`ReadResult`.  Everything the program does to the outside world (system
calls, `perror`, `printf`) is recorded, in program order, as a list of
`Effect`s.
-/

namespace GameController

/-! ## Machine integers -/

/-- Size in bytes of `struct js_event` (`__u32 time; __s16 value; __u8 type; __u8 number;`). -/
def SIZEOF_JS_EVENT : Nat := 8

/-- Number of records of `js_event _eventBuffer[100]`. -/
def EVENT_BUFFER_LEN : Nat := 100

/-- Byte size of the event buffer, `sizeof(_eventBuffer)`, the count passed to `read`. -/
def SIZEOF_EVENT_BUFFER : Nat := EVENT_BUFFER_LEN * SIZEOF_JS_EVENT

/-- Conversion of an `int` to `size_t`, which is unsigned and 64 bits wide on the LP64
    targets of `linux/joystick.h`: reduction modulo `2^64`. -/
def toSizeT (x : Int) : Nat := (x % (2 ^ 64 : Int)).toNat

/-- Narrowing of a `size_t` to `int` (32 bits, signed): reduction modulo `2^32` into the signed range. -/
def toInt (n : Nat) : Int :=
  if n % 2 ^ 32 < 2 ^ 31 then ((n % 2 ^ 32 : Nat) : Int) else ((n % 2 ^ 32 : Nat) : Int) - 2 ^ 32

/-- The expression `bytes/sizeof(js_event)` assigned to `int events`: the `int`
    operand is converted to `size_t`, the division is unsigned, and the quotient
    is narrowed back to `int`. -/
def eventCount (bytes : Int) : Int := toInt (toSizeT bytes / SIZEOF_JS_EVENT)

/-- The value of a plain `char` whose storage holds the byte `b`.  Whether plain `char`
    is signed is fixed by the target: it is on x86 and x86-64, it is not on ARM. -/
def charValue (signedChar : Bool) (b : Nat) : Int :=
  if signedChar = true ∧ 128 ≤ b % 256 then ((b % 256 : Nat) : Int) - 256
  else ((b % 256 : Nat) : Int)

/-- Conversion of an integer value to `uint` (`unsigned int`, 32 bits): reduction
    modulo `2^32`. -/
def toUInt (x : Int) : Nat := (x % (2 ^ 32 : Int)).toNat

/-- Values an `int` can hold. -/
def isInt (x : Int) : Prop := -(2 ^ 31 : Int) ≤ x ∧ x < 2 ^ 31

instance (x : Int) : Decidable (isInt x) := by unfold isInt; infer_instance

/-! ## Raw events and formatting -/

/-- The record `struct js_event` of `linux/joystick.h`. -/
structure js_event where
  /-- Field `__u32 time`: event timestamp in milliseconds. -/
  time : Nat
  /-- Field `__s16 value`. -/
  value : Int
  /-- Field `__u8 type`. -/
  type : Nat
  /-- Field `__u8 number`. -/
  number : Nat
deriving DecidableEq

/-- The field ranges of a `js_event` as the kernel delivers it. -/
def js_event.wf (e : js_event) : Prop :=
  e.time < 2 ^ 32 ∧ -32768 ≤ e.value ∧ e.value ≤ 32767 ∧ e.type < 256 ∧ e.number < 256

instance (e : js_event) : Decidable e.wf := by unfold js_event.wf; infer_instance

/-- Constant `JS_EVENT_BUTTON` of `linux/joystick.h`: button pressed or released. -/
def JS_EVENT_BUTTON : Nat := 0x01

/-- Constant `JS_EVENT_AXIS` of `linux/joystick.h`: joystick moved. -/
def JS_EVENT_AXIS : Nat := 0x02

/-- Constant `JS_EVENT_INIT` of `linux/joystick.h`: flag of the initial state events. -/
def JS_EVENT_INIT : Nat := 0x80

/-- Conversion `%u` of `printf` applied to a promoted `__u8`. -/
def fmtU (n : Nat) : String := toString n

/-- Conversion `%d` of `printf` applied to a promoted `__s16`. -/
def fmtD (v : Int) : String := toString v

/-- The operand `buffer->value ? "pressed" : "released"`. -/
def pressedOrReleased (value : Int) : String :=
  if value ≠ 0 then "pressed" else "released"

/-- Number of bytes of the local arrays `char err[256]` of the two constructors. -/
def ERR_LEN : Nat := 256

/-- The call `sprintf(err, ...)` producing `text`: its bytes and the terminating NUL are
    written to `char err[256]`.  When they do not fit, the call writes behind the end of
    the array and the behaviour is undefined: `none`. -/
def sprintfErr (text : String) : Option String :=
  if text.utf8ByteSize + 1 ≤ ERR_LEN then some text else none

/-- A path that names the node `/dev/input/js0` through `n` redundant `./` steps. -/
def deepPath (n : Nat) : String :=
  "/dev/input/" ++ String.join (List.replicate n "./") ++ "js0"

/-! ## The profile tables of `LogitechF710` -/

namespace LogitechF710

/-- Enumerator `BUTTON::BUTTON_COUNT`. -/
def BUTTON_COUNT : Nat := 11

/-- Enumerator `AXIS::AXIS_COUNT`. -/
def AXIS_COUNT : Nat := 8

/-- The struct `AxisConfig::Range`. -/
structure Range where
  low : Int
  high : Int
  mid : Int
  latent : Int
deriving DecidableEq

/-- The struct `AxisConfig`. -/
structure AxisConfig where
  name : String
  range : Range
deriving DecidableEq

/-- A `std::map` keyed by an enumeration, as its list of entries. -/
abbrev EnumMap (α : Type) := List (Nat × α)

/-- Member `std::map::count`: 1 when the key has an entry, else 0. -/
def EnumMap.count {α : Type} (m : EnumMap α) (k : Nat) : Nat :=
  if (m.lookup k).isSome then 1 else 0

/-- Member `std::map::operator[]` read at a key (the default value when absent). -/
def EnumMap.subscript {α : Type} [Inhabited α] (m : EnumMap α) (k : Nat) : α :=
  (m.lookup k).getD default

instance : Inhabited AxisConfig := ⟨⟨"", ⟨0, 0, 0, 0⟩⟩⟩

/-- Static member `LogitechF710::signature`. -/
def signature : String := "Logitech Gamepad F710"

/-- Static member `LogitechF710::buttonConfig`, keys `A` = 0 .. `RS` = 10. -/
def buttonConfig : EnumMap String :=
  [ (0, "A - Green"),
    (1, "B - Red"),
    (2, "X - Blue"),
    (3, "Y - Yellow"),
    (4, "Left Trigger"),
    (5, "Right Trigger"),
    (6, "Back"),
    (7, "Start"),
    (8, "Mode"),
    (9, "Left Stick"),
    (10, "Right Stick") ]

/-- Static member `LogitechF710::axisConfig`, keys `LEFT_STICK_X` = 0 .. `CROSSBAR_Y` = 7. -/
def axisConfig : EnumMap AxisConfig :=
  [ (0, ⟨"Left Stick-X", ⟨-32767, 32767, 0, 0⟩⟩),
    (1, ⟨"Left Stick-Y", ⟨-32767, 32767, 0, 0⟩⟩),
    (2, ⟨"Left Trigger", ⟨-32767, 32767, 0, -32767⟩⟩),
    (3, ⟨"Right Stick-X", ⟨-32767, 32767, 0, 0⟩⟩),
    (4, ⟨"Right Stick-Y", ⟨-32767, 32767, 0, 0⟩⟩),
    (5, ⟨"Right Trigger", ⟨-32767, 32767, 0, -32767⟩⟩),
    (6, ⟨"Crossbar-X", ⟨-32767, 32767, 0, 0⟩⟩),
    (7, ⟨"Crossbar-Y", ⟨-32767, 32767, 0, 0⟩⟩) ]

/-- The body of `switch (buffer->type)` in `eventLoop`, over arbitrary tables:
    the strings handed to `printf` for one raw event, in order. -/
def switchBodyWith (bc : EnumMap String) (ac : EnumMap AxisConfig) (e : js_event) :
    List String :=
  if e.type = JS_EVENT_BUTTON then
    if (e.number : Int) < 0 ∨ e.number ≥ BUTTON_COUNT then
      ["Button " ++ fmtU e.number ++ " " ++ pressedOrReleased e.value ++ " undefined\n"]
    else if bc.count e.number ≠ 0 then
      [bc.subscript e.number ++ " " ++ pressedOrReleased e.value ++ "\n"]
    else []
  else if e.type = JS_EVENT_AXIS then
    if (e.number : Int) < 0 ∨ e.number ≥ AXIS_COUNT then
      ["Axis " ++ fmtU e.number ++ " \n"]
    else if ac.count e.number ≠ 0 then
      [(ac.subscript e.number).name ++ " value " ++ fmtD e.value ++ "\n"]
    else []
  else
    ["Default " ++ fmtU e.type ++ "\n"]

/-- The body of `switch (buffer->type)` with the shipped tables. -/
def switchBody (e : js_event) : List String :=
  switchBodyWith buttonConfig axisConfig e

end LogitechF710

/-! ## The operating system as an environment -/

/-- What the program does to the outside world, in program order. -/
inductive Effect where
  /-- Call `open(path, O_RDONLY)`. -/
  | sysOpen (path : String)
  /-- Call `perror(msg)`. -/
  | perror (msg : String)
  /-- Call `ioctl(fd, JSIOCGNAME(128), name)`. -/
  | ioctlName (fd : Int)
  /-- Call `ioctl(fd, JSIOCGAXES, &_axisCount)`. -/
  | ioctlAxes (fd : Int)
  /-- Call `ioctl(fd, JSIOCGBUTTONS, &_buttonCount)`. -/
  | ioctlButtons (fd : Int)
  /-- Call `close(fd)`. -/
  | sysClose (fd : Int)
  /-- Call `read(fd, _eventBuffer, sizeof(_eventBuffer))`. -/
  | sysRead (fd : Int)
  /-- Call `printf` producing the text `out`. -/
  | printf (out : String)
deriving DecidableEq

/-- The texts written by `printf`, in order. -/
def printed : List Effect → List String
  | [] => []
  | Effect.printf out :: rest => out :: printed rest
  | _ :: rest => printed rest

/-- The descriptors passed to `close`, in order. -/
def closed : List Effect → List Int
  | [] => []
  | Effect.sysClose fd :: rest => fd :: closed rest
  | _ :: rest => closed rest

/-- The number of `read` calls issued. -/
def readsIssued : List Effect → Nat
  | [] => 0
  | Effect.sysRead _ :: rest => readsIssued rest + 1
  | _ :: rest => readsIssued rest

/-- What the device node answers while a handle is constructed. -/
structure DeviceEnv where
  /-- Result of `open`: a descriptor, or -1. -/
  openResult : Int
  /-- The C string left in `name` by `JSIOCGNAME`, or `none` when the call returns `< 0`. -/
  nameResult : Option String
  /-- The `__u8` written by `JSIOCGAXES`, or `none` when the call fails. -/
  axesResult : Option Nat
  /-- The `__u8` written by `JSIOCGBUTTONS`, or `none` when the call fails. -/
  buttonsResult : Option Nat
  /-- The contents of the uninitialised member `_eventBuffer`. -/
  bufferGarbage : List js_event

/-- What one `read` on the device answers: the value stored in `int bytes` and the
    complete records the kernel copied to the start of the buffer. -/
structure ReadResult where
  bytes : Int
  data : List js_event
deriving DecidableEq

/-- A read that succeeded: it returns between 0 and `sizeof(_eventBuffer)` bytes and
    `data` holds the complete records among them. -/
def ReadResult.delivered (r : ReadResult) : Prop :=
  0 ≤ r.bytes ∧ r.bytes ≤ SIZEOF_EVENT_BUFFER ∧ (r.data.length : Int) = r.bytes / SIZEOF_JS_EVENT

instance (r : ReadResult) : Decidable r.delivered := by
  unfold ReadResult.delivered; infer_instance

/-- A read that failed: it returns a negative `int`. -/
def ReadResult.failed (r : ReadResult) : Prop := isInt r.bytes ∧ r.bytes < 0

instance (r : ReadResult) : Decidable r.failed := by
  unfold ReadResult.failed; infer_instance

/-- The effect of `read` on the buffer: the delivered records replace its first entries. -/
def sysRead (buf : List js_event) (r : ReadResult) : Int × List js_event :=
  (r.bytes, r.data ++ buf.drop r.data.length)

/-! ## `GameControllerBase` -/

/-- The data members of `GameControllerBase`.  The two counts are the bytes held by the
    `char` members. -/
structure GameControllerBase where
  _device : String
  _name : String
  _fd : Int
  _axisCount : Nat
  _buttonCount : Nat
  _eventBuffer : List js_event
deriving DecidableEq

/-- The type `EventQueue` = `std::queue<js_event>`, front first. -/
abbrev EventQueue := List js_event

/-- Member `std::queue::push`. -/
def EventQueue.push (q : EventQueue) (e : js_event) : EventQueue := q ++ [e]

namespace GameControllerBase

/-- The constructor `GameControllerBase(std::string device)`: the object it leaves and
    its effects.  The object is `none` when the `sprintf` of the open failure writes
    behind the end of `err`, where the behaviour is undefined; the effects are then
    those before that call. -/
def new (device : String) (os : DeviceEnv) : Option GameControllerBase × List Effect :=
  let s0 : GameControllerBase :=
    { _device := device, _name := "", _fd := -1, _axisCount := 0, _buttonCount := 0,
      _eventBuffer := os.bufferGarbage }
  let s1 := { s0 with _fd := os.openResult }
  if s1._fd = -1 then
    match sprintfErr ("Could not open game controller: " ++ device ++ "\n") with
    | none => (none, [Effect.sysOpen device])
    | some err => (some s1, [Effect.sysOpen device, Effect.perror err])
  else
    let name := match os.nameResult with
      | some n => n
      | none => "Unknown"
    let s2 := { s1 with _name := name }
    let s3 := match os.axesResult with
      | some a => { s2 with _axisCount := a % 256 }
      | none => s2
    let s4 := match os.buttonsResult with
      | some b => { s3 with _buttonCount := b % 256 }
      | none => s3
    (some s4, [Effect.sysOpen device, Effect.ioctlName s1._fd, Effect.ioctlAxes s1._fd,
          Effect.ioctlButtons s1._fd])

/-- Member `cleanup()`. -/
def cleanup (s : GameControllerBase) : GameControllerBase × List Effect :=
  ({ s with _fd := -1 }, if s._fd ≠ -1 then [Effect.sysClose s._fd] else [])

/-- Member `getName()`. -/
def getName (s : GameControllerBase) : String := s._name

/-- Member `getDevice()`. -/
def getDevice (s : GameControllerBase) : String := s._device

/-- Member `getAxisCount()`: the `char` member converted to the return type `uint`. -/
def getAxisCount (signedChar : Bool) (s : GameControllerBase) : Nat :=
  toUInt (charValue signedChar s._axisCount)

/-- Member `getButtonCount()`: the `char` member converted to the return type `uint`. -/
def getButtonCount (signedChar : Bool) (s : GameControllerBase) : Nat :=
  toUInt (charValue signedChar s._buttonCount)

/-- Member `readEvents()`: the pair it returns (count, buffer contents behind the
    returned pointer) and the object afterwards. -/
def readEvents (s : GameControllerBase) (r : ReadResult) :
    (Int × List js_event) × GameControllerBase :=
  let (bytes, buf) := sysRead s._eventBuffer r
  let events := eventCount bytes
  ((events, buf), { s with _eventBuffer := buf })

/-- The loop `for(int i=0; i < events; i++) q.push(_eventBuffer[i]);` of `waitForEvent`,
    with `k` iterations left and the index at `i`.  Reading behind the end of the
    array is undefined: `none`. -/
def waitForEvent.forLoop (buf : List js_event) : Nat → Nat → EventQueue → Option EventQueue
  | 0, _, q => some q
  | k + 1, i, q =>
    match buf.get? i with
    | none => none
    | some e => waitForEvent.forLoop buf k (i + 1) (q.push e)

/-- Member `waitForEvent(EventQueue& q)`: the value returned, the queue and the object
    afterwards; `none` when the loop leaves the array. -/
def waitForEvent (s : GameControllerBase) (q : EventQueue) (r : ReadResult) :
    Option (Int × EventQueue × GameControllerBase) :=
  let (bytes, buf) := sysRead s._eventBuffer r
  let events := eventCount bytes
  match waitForEvent.forLoop buf events.toNat 0 q with
  | none => none
  | some q1 => some (events, q1, { s with _eventBuffer := buf })

end GameControllerBase

/-! ## `LogitechF710` -/

namespace LogitechF710

/-- How a constructor call ends. -/
inductive Construction where
  /-- The object exists. -/
  | constructed (self : GameControllerBase)
  /-- The constructor threw `std::invalid_argument(what)`; `self` is the base
      sub-object at the `throw`. -/
  | threw (what : String) (self : GameControllerBase)
  /-- A `sprintf` wrote behind the end of `err`: the behaviour is undefined, no object
      and no exception is guaranteed. -/
  | undefined
deriving DecidableEq

/-- The constructor `LogitechF710(std::string device)`: how it ends and its effects up
    to there. -/
def new (device : String) (os : DeviceEnv) : Construction × List Effect :=
  match GameControllerBase.new device os with
  | (none, fx) => (Construction.undefined, fx)
  | (some s, fx) =>
    if signature ≠ s.getName then
      let (s1, fx1) := s.cleanup
      match sprintfErr ("Device " ++ device ++ ":" ++ s1.getName ++ " is not a " ++
          signature ++ " controller") with
      | none => (Construction.undefined, fx ++ fx1)
      | some err => (Construction.threw err s1, fx ++ fx1)
    else
      (Construction.constructed s, fx)

/-- The loop `for (int i=0; i < events; i++, buffer++)` of `eventLoop`, with `k`
    iterations left and `buffer` pointing at the head of the list: the texts printed
    and whether the loop stayed inside the array. -/
def eventLoop.forLoop : Nat → List js_event → List String × Bool
  | 0, _ => ([], true)
  | _ + 1, [] => ([], false)
  | k + 1, e :: buffer =>
    let (out, ok) := eventLoop.forLoop k buffer
    (switchBody e ++ out, ok)

/-- Where `eventLoop` is after the reads it was given. -/
inductive LoopStatus where
  /-- Inside `read`, waiting for the device. -/
  | blocked
  /-- Left through `return`. -/
  | returned
  /-- The decode loop ran behind the end of the buffer. -/
  | undefined
deriving DecidableEq

/-- Outcome of running `eventLoop` against a finite sequence of read results. -/
structure LoopResult where
  trace : List Effect
  status : LoopStatus
  self : GameControllerBase

/-- Member `eventLoop()`, run against the results of its successive reads. -/
def eventLoop (s : GameControllerBase) : List ReadResult → LoopResult
  | [] => ⟨[Effect.sysRead s._fd], LoopStatus.blocked, s⟩
  | r :: rest =>
    let ((events, buffer), s1) := s.readEvents r
    if events < 0 then
      ⟨[Effect.sysRead s._fd], LoopStatus.returned, s1⟩
    else
      let (out, ok) := eventLoop.forLoop events.toNat buffer
      if ok then
        let res := eventLoop s1 rest
        ⟨Effect.sysRead s._fd :: out.map Effect.printf ++ res.trace, res.status, res.self⟩
      else
        ⟨Effect.sysRead s._fd :: out.map Effect.printf, LoopStatus.undefined, s1⟩

end LogitechF710

/-! ## Reference functions for the decode loop -/

/-- The decoding of a sequence of raw events: the texts of the events, one after the
    other, in the order of the sequence. -/
def decode : List js_event → List String
  | [] => []
  | e :: es => LogitechF710.switchBody e ++ decode es

/-- The raw events delivered by a sequence of reads, in arrival order. -/
def arrivals : List ReadResult → List js_event
  | [] => []
  | r :: rs => r.data ++ arrivals rs

/-- The effects of a sequence of successful loop rounds on descriptor `fd`: each round
    is its `read` followed by the texts of the events that read delivered. -/
def rounds (fd : Int) : List ReadResult → List Effect
  | [] => []
  | r :: rs => Effect.sysRead fd :: (decode r.data).map Effect.printf ++ rounds fd rs

/-- A read that delivers exactly the one event `e`. -/
def LogitechF710.single (e : js_event) : ReadResult := ⟨8, [e]⟩

/-- The axis table with every range replaced by `f` of its key. -/
def LogitechF710.axisConfigWithRanges (f : Nat → LogitechF710.Range) :
    LogitechF710.EnumMap LogitechF710.AxisConfig :=
  LogitechF710.axisConfig.map fun p => (p.1, ⟨p.2.name, f p.1⟩)

/-- Member `std::map::operator[]` in full: the value at the key and the map afterwards,
    which gains a default entry when the key was absent. -/
def LogitechF710.EnumMap.subscriptMut {α : Type} [Inhabited α] (m : LogitechF710.EnumMap α)
    (k : Nat) : α × LogitechF710.EnumMap α :=
  match m.lookup k with
  | some v => (v, m)
  | none => (default, m ++ [(k, default)])

/-- The body of `switch (buffer->type)` with the two static maps as state: the texts
    printed and the maps afterwards. -/
def LogitechF710.switchBodyMut (bc : LogitechF710.EnumMap String)
    (ac : LogitechF710.EnumMap LogitechF710.AxisConfig) (e : js_event) :
    List String × LogitechF710.EnumMap String × LogitechF710.EnumMap LogitechF710.AxisConfig :=
  if e.type = JS_EVENT_BUTTON then
    if (e.number : Int) < 0 ∨ e.number ≥ LogitechF710.BUTTON_COUNT then
      (["Button " ++ fmtU e.number ++ " " ++ pressedOrReleased e.value ++ " undefined\n"],
        bc, ac)
    else if bc.count e.number ≠ 0 then
      let (name, bc1) := bc.subscriptMut e.number
      ([name ++ " " ++ pressedOrReleased e.value ++ "\n"], bc1, ac)
    else ([], bc, ac)
  else if e.type = JS_EVENT_AXIS then
    if (e.number : Int) < 0 ∨ e.number ≥ LogitechF710.AXIS_COUNT then
      (["Axis " ++ fmtU e.number ++ " \n"], bc, ac)
    else if ac.count e.number ≠ 0 then
      let (config, ac1) := ac.subscriptMut e.number
      ([config.name ++ " value " ++ fmtD e.value ++ "\n"], bc, ac1)
    else ([], bc, ac)
  else
    (["Default " ++ fmtU e.type ++ "\n"], bc, ac)

/-! ## Lemmas on the count computation -/

theorem eventCount_eq_div (b : Int) (h : isInt b) : eventCount b = b / 8 := by
  unfold isInt at h
  unfold eventCount toInt toSizeT SIZEOF_JS_EVENT
  split <;> omega

theorem eventCount_neg (b : Int) (h : isInt b) (hb : b < 0) : eventCount b < 0 := by
  rw [eventCount_eq_div b h]
  omega

theorem eventCount_delivered (r : ReadResult) (h : r.delivered) :
    eventCount r.bytes = (r.data.length : Int) := by
  unfold ReadResult.delivered SIZEOF_EVENT_BUFFER EVENT_BUFFER_LEN SIZEOF_JS_EVENT at h
  obtain ⟨h0, h1, h2⟩ := h
  rw [eventCount_eq_div r.bytes ⟨by omega, by omega⟩, h2]
  norm_num

/-! ## Lemmas on effects and on the decode loop -/

theorem printed_append (xs ys : List Effect) : printed (xs ++ ys) = printed xs ++ printed ys := by
  induction xs with
  | nil => rfl
  | cons x xs ih => cases x <;> simp [printed, ih]

theorem printed_map_printf (out : List String) : printed (out.map Effect.printf) = out := by
  induction out with
  | nil => rfl
  | cons x xs ih => simp [printed, ih]

theorem readsIssued_append (xs ys : List Effect) :
    readsIssued (xs ++ ys) = readsIssued xs + readsIssued ys := by
  induction xs with
  | nil => simp [readsIssued]
  | cons x xs ih =>
    cases x <;> simp [readsIssued, ih]
    omega

theorem readsIssued_map_printf (out : List String) :
    readsIssued (out.map Effect.printf) = 0 := by
  induction out with
  | nil => rfl
  | cons x xs ih => simp [readsIssued, ih]

theorem decode_append (xs ys : List js_event) : decode (xs ++ ys) = decode xs ++ decode ys := by
  induction xs with
  | nil => rfl
  | cons x xs ih => simp [decode, ih]

theorem arrivals_append (xs ys : List ReadResult) :
    arrivals (xs ++ ys) = arrivals xs ++ arrivals ys := by
  induction xs with
  | nil => rfl
  | cons x xs ih => simp [arrivals, ih]

theorem printed_rounds (fd : Int) (reads : List ReadResult) :
    printed (rounds fd reads) = decode (arrivals reads) := by
  induction reads with
  | nil => rfl
  | cons r rs ih =>
    simp [rounds, arrivals, printed, printed_append, printed_map_printf, decode_append, ih]

theorem readsIssued_rounds (fd : Int) (reads : List ReadResult) :
    readsIssued (rounds fd reads) = reads.length := by
  induction reads with
  | nil => rfl
  | cons r rs ih =>
    simp [rounds, readsIssued, readsIssued_append, readsIssued_map_printf, ih]

theorem rounds_append (fd : Int) (xs ys : List ReadResult) :
    rounds fd (xs ++ ys) = rounds fd xs ++ rounds fd ys := by
  induction xs with
  | nil => rfl
  | cons x xs ih => simp [rounds, ih]

namespace LogitechF710

theorem forLoop_data (data rest : List js_event) :
    eventLoop.forLoop data.length (data ++ rest) = (decode data, true) := by
  induction data with
  | nil => cases rest <;> rfl
  | cons e es ih => simp [eventLoop.forLoop, ih, decode]

theorem readEvents_delivered (s : GameControllerBase) (r : ReadResult) (h : r.delivered) :
    s.readEvents r =
      (((r.data.length : Int), r.data ++ s._eventBuffer.drop r.data.length),
        { s with _eventBuffer := r.data ++ s._eventBuffer.drop r.data.length }) := by
  simp [GameControllerBase.readEvents, sysRead, eventCount_delivered r h]

theorem eventLoop_cons_delivered (s : GameControllerBase) (r : ReadResult)
    (rest : List ReadResult) (h : r.delivered) :
    eventLoop s (r :: rest) =
      (let res := eventLoop { s with _eventBuffer := r.data ++ s._eventBuffer.drop r.data.length } rest
       ⟨Effect.sysRead s._fd :: (decode r.data).map Effect.printf ++ res.trace,
        res.status, res.self⟩) := by
  simp [eventLoop, readEvents_delivered s r h, forLoop_data]

theorem eventLoop_cons_failed (s : GameControllerBase) (r : ReadResult)
    (rest : List ReadResult) (h : r.failed) :
    eventLoop s (r :: rest) =
      ⟨[Effect.sysRead s._fd], LoopStatus.returned,
        { s with _eventBuffer := r.data ++ s._eventBuffer.drop r.data.length }⟩ := by
  have hneg : eventCount r.bytes < 0 := eventCount_neg r.bytes h.1 h.2
  simp [eventLoop, GameControllerBase.readEvents, sysRead, hneg]

/-- While every read succeeds the loop keeps going: its effects are the rounds of the
    reads followed by one more `read`, inside which it is blocked. -/
theorem eventLoop_delivered (reads : List ReadResult) :
    ∀ s : GameControllerBase, (∀ r ∈ reads, r.delivered) →
      (eventLoop s reads).trace = rounds s._fd reads ++ [Effect.sysRead s._fd] ∧
      (eventLoop s reads).status = LoopStatus.blocked ∧
      (eventLoop s reads).self._fd = s._fd := by
  induction reads with
  | nil => intro s _; simp [eventLoop, rounds]
  | cons r rs ih =>
    intro s h
    have hr : r.delivered := h r (List.mem_cons_self _ _)
    have hrs : ∀ x ∈ rs, x.delivered := fun x hx => h x (List.mem_cons_of_mem _ hx)
    obtain ⟨h1, h2, h3⟩ := ih { s with _eventBuffer := r.data ++ s._eventBuffer.drop r.data.length } hrs
    rw [eventLoop_cons_delivered s r rs hr]
    simp only [h1, h2, h3, rounds]
    simp

/-- After successful reads, the first failing read ends the loop at once. -/
theorem eventLoop_failed (pre : List ReadResult) (bad : ReadResult) (post : List ReadResult) :
    ∀ s : GameControllerBase, (∀ r ∈ pre, r.delivered) → bad.failed →
      (eventLoop s (pre ++ bad :: post)).trace = rounds s._fd pre ++ [Effect.sysRead s._fd] ∧
      (eventLoop s (pre ++ bad :: post)).status = LoopStatus.returned := by
  induction pre with
  | nil => intro s _ hb; simp [eventLoop_cons_failed s bad post hb, rounds]
  | cons r rs ih =>
    intro s h hb
    have hr : r.delivered := h r (List.mem_cons_self _ _)
    have hrs : ∀ x ∈ rs, x.delivered := fun x hx => h x (List.mem_cons_of_mem _ hx)
    obtain ⟨h1, h2⟩ := ih { s with _eventBuffer := r.data ++ s._eventBuffer.drop r.data.length } hrs hb
    rw [List.cons_append, eventLoop_cons_delivered s r _ hr]
    simp only [h1, h2, rounds]
    simp

end LogitechF710

/-! ## Decoding one raw event -/

namespace LogitechF710

theorem single_delivered (e : js_event) : (single e).delivered := by
  simp [single, ReadResult.delivered, SIZEOF_EVENT_BUFFER, EVENT_BUFFER_LEN, SIZEOF_JS_EVENT]

theorem eventLoop_single (s : GameControllerBase) (e : js_event) :
    printed (eventLoop s [single e]).trace = switchBody e ∧
    (eventLoop s [single e]).status = LoopStatus.blocked := by
  have h := eventLoop_delivered [single e] s (by simpa using single_delivered e)
  refine ⟨?_, h.2.1⟩
  rw [h.1, printed_append, printed_rounds]
  simp [arrivals, single, decode, printed]

/-- C1: a BUTTON event whose number is in 0..10 makes the decode step print exactly one
    text, the `buttonConfig` name for that number, a blank, and `released` when the value
    is 0 or `pressed` for any other value; a run of `eventLoop` on a read delivering that
    event prints exactly that text. -/
theorem C1_button_in_range (e : js_event) (ht : e.type = JS_EVENT_BUTTON)
    (hn : e.number ≤ 10) :
    buttonConfig.count e.number = 1 ∧
    switchBody e =
      [buttonConfig.subscript e.number ++ " " ++
        (if e.value = 0 then "released" else "pressed") ++ "\n"] ∧
    ∀ s : GameControllerBase, printed (eventLoop s [single e]).trace =
      [buttonConfig.subscript e.number ++ " " ++
        (if e.value = 0 then "released" else "pressed") ++ "\n"] := by
  obtain ⟨t, v, ty, n⟩ := e
  simp only at ht hn
  subst ht
  have key : buttonConfig.count n = 1 ∧
      switchBody ⟨t, v, JS_EVENT_BUTTON, n⟩ =
        [buttonConfig.subscript n ++ " " ++ (if v = 0 then "released" else "pressed") ++ "\n"] := by
    by_cases hv : v = 0 <;> interval_cases n <;>
      simp [switchBody, switchBodyWith, JS_EVENT_BUTTON, BUTTON_COUNT, EnumMap.count,
        EnumMap.subscript, buttonConfig, pressedOrReleased, hv, List.lookup]
  refine ⟨key.1, key.2, fun s => ?_⟩
  rw [(eventLoop_single s _).1, key.2]

/-- C1, at the events (BUTTON, number 0, value 1), (BUTTON, number 10, value -5) and
    (BUTTON, number 3, value 0). -/
theorem C1_button_in_range_witness :
    switchBody ⟨0, 1, 1, 0⟩ = ["A - Green pressed\n"] ∧
    switchBody ⟨0, -5, 1, 10⟩ = ["Right Stick pressed\n"] ∧
    switchBody ⟨0, 0, 1, 3⟩ = ["Y - Yellow released\n"] :=
  ⟨(C1_button_in_range ⟨0, 1, 1, 0⟩ rfl (by decide)).2.1,
   (C1_button_in_range ⟨0, -5, 1, 10⟩ rfl (by decide)).2.1,
   (C1_button_in_range ⟨0, 0, 1, 3⟩ rfl (by decide)).2.1⟩

/-- C2: an AXIS event whose number is in 0..7 makes the decode step print exactly one
    text, the `axisConfig` name for that number, ` value ` and the raw value in decimal,
    whatever the value is; the text is the same whatever ranges the table holds; a run of
    `eventLoop` on a read delivering that event prints exactly that text. -/
theorem C2_axis_in_range (e : js_event) (ht : e.type = JS_EVENT_AXIS) (hn : e.number ≤ 7) :
    axisConfig.count e.number = 1 ∧
    switchBody e = [(axisConfig.subscript e.number).name ++ " value " ++ toString e.value ++ "\n"] ∧
    (∀ f : Nat → Range, switchBodyWith buttonConfig (axisConfigWithRanges f) e = switchBody e) ∧
    ∀ s : GameControllerBase, printed (eventLoop s [single e]).trace =
      [(axisConfig.subscript e.number).name ++ " value " ++ toString e.value ++ "\n"] := by
  obtain ⟨t, v, ty, n⟩ := e
  simp only at ht hn
  subst ht
  have key : axisConfig.count n = 1 ∧
      switchBody ⟨t, v, JS_EVENT_AXIS, n⟩ =
        [(axisConfig.subscript n).name ++ " value " ++ toString v ++ "\n"] ∧
      ∀ f : Nat → Range, switchBodyWith buttonConfig (axisConfigWithRanges f)
        ⟨t, v, JS_EVENT_AXIS, n⟩ = switchBody ⟨t, v, JS_EVENT_AXIS, n⟩ := by
    interval_cases n <;>
      simp [switchBody, switchBodyWith, JS_EVENT_BUTTON, JS_EVENT_AXIS, AXIS_COUNT,
        EnumMap.count, EnumMap.subscript, axisConfig, axisConfigWithRanges, fmtD, List.lookup]
  refine ⟨key.1, key.2.1, key.2.2, fun s => ?_⟩
  rw [(eventLoop_single s _).1, key.2.1]

/-- C2, at the events (AXIS, number 2, value -32767) and (AXIS, number 2, value -32768). -/
theorem C2_axis_in_range_witness :
    switchBody ⟨0, -32767, 2, 2⟩ = ["Left Trigger value -32767\n"] ∧
    switchBody ⟨0, -32768, 2, 2⟩ = ["Left Trigger value -32768\n"] :=
  ⟨(C2_axis_in_range ⟨0, -32767, 2, 2⟩ rfl (by decide)).2.1,
   (C2_axis_in_range ⟨0, -32768, 2, 2⟩ rfl (by decide)).2.1⟩

/-- C3: a BUTTON event whose number is 11 or more prints exactly
    `Button <n> pressed|released undefined`, and an AXIS event whose number is 8 or more
    prints exactly `Axis <n> `, whatever entries the two tables hold: the tables are not
    consulted and no name from them is printed. -/
theorem C3_out_of_range (bc : EnumMap String) (ac : EnumMap AxisConfig) (e : js_event) :
    (e.type = JS_EVENT_BUTTON → BUTTON_COUNT ≤ e.number →
      switchBodyWith bc ac e =
        ["Button " ++ toString e.number ++ " " ++
          (if e.value = 0 then "released" else "pressed") ++ " undefined\n"]) ∧
    (e.type = JS_EVENT_AXIS → AXIS_COUNT ≤ e.number →
      switchBodyWith bc ac e = ["Axis " ++ toString e.number ++ " \n"]) := by
  constructor
  · intro ht hn
    by_cases hv : e.value = 0 <;>
      simp [switchBodyWith, ht, hn, fmtU, pressedOrReleased, hv]
  · intro ht hn
    simp [switchBodyWith, ht, hn, fmtU, JS_EVENT_AXIS, JS_EVENT_BUTTON]

/-- C3, at the events (BUTTON, number 50, value 1), (BUTTON, number 255, value 0) and
    (AXIS, number 8, value 7), with the shipped tables. -/
theorem C3_out_of_range_witness :
    switchBody ⟨0, 1, 1, 50⟩ = ["Button 50 pressed undefined\n"] ∧
    switchBody ⟨0, 0, 1, 255⟩ = ["Button 255 released undefined\n"] ∧
    switchBody ⟨0, 7, 2, 8⟩ = ["Axis 8 \n"] :=
  ⟨(C3_out_of_range buttonConfig axisConfig ⟨0, 1, 1, 50⟩).1 rfl (by decide),
   (C3_out_of_range buttonConfig axisConfig ⟨0, 0, 1, 255⟩).1 rfl (by decide),
   (C3_out_of_range buttonConfig axisConfig ⟨0, 7, 2, 8⟩).2 rfl (by decide)⟩

/-! ## The identity check of the constructor -/

theorem closed_append (xs ys : List Effect) : closed (xs ++ ys) = closed xs ++ closed ys := by
  induction xs with
  | nil => rfl
  | cons x xs ih => cases x <;> simp [closed, ih]

theorem base_new_of_opened (device : String) (os : DeviceEnv) (ho : os.openResult ≠ -1) :
    GameControllerBase.new device os =
      (some ⟨device, os.nameResult.getD "Unknown", os.openResult,
          os.axesResult.getD 0 % 256, os.buttonsResult.getD 0 % 256, os.bufferGarbage⟩,
       [Effect.sysOpen device, Effect.ioctlName os.openResult,
        Effect.ioctlAxes os.openResult, Effect.ioctlButtons os.openResult]) := by
  unfold GameControllerBase.new
  cases hx : os.axesResult <;> cases hy : os.buttonsResult <;> cases hz : os.nameResult <;>
    simp [ho]

theorem base_new_of_open_failure (device : String) (os : DeviceEnv)
    (h : os.openResult = -1)
    (hfit : ("Could not open game controller: " ++ device ++ "\n").utf8ByteSize < 256) :
    GameControllerBase.new device os =
      (some ⟨device, "", -1, 0, 0, os.bufferGarbage⟩,
       [Effect.sysOpen device,
        Effect.perror ("Could not open game controller: " ++ device ++ "\n")]) := by
  have hle : ("Could not open game controller: " ++ device ++ "\n").utf8ByteSize + 1 ≤ ERR_LEN := by
    unfold ERR_LEN; omega
  simp [GameControllerBase.new, h, sprintfErr, hle]

theorem base_new_overflow (device : String) (os : DeviceEnv) (h : os.openResult = -1)
    (hbig : 256 ≤ ("Could not open game controller: " ++ device ++ "\n").utf8ByteSize) :
    GameControllerBase.new device os = (none, [Effect.sysOpen device]) := by
  have hle : ¬ ("Could not open game controller: " ++ device ++ "\n").utf8ByteSize + 1 ≤ ERR_LEN := by
    unfold ERR_LEN; omega
  simp [GameControllerBase.new, h, sprintfErr, hle]

theorem new_of_base_overflow (device : String) (os : DeviceEnv) (fx : List Effect)
    (hb : GameControllerBase.new device os = (none, fx)) :
    new device os = (Construction.undefined, fx) := by
  simp [new, hb]

theorem new_of_match (device : String) (os : DeviceEnv) (s : GameControllerBase)
    (fx : List Effect) (hb : GameControllerBase.new device os = (some s, fx))
    (h : signature = s.getName) :
    new device os = (Construction.constructed s, fx) := by
  simp [new, hb, h]

theorem new_of_mismatch (device : String) (os : DeviceEnv) (s : GameControllerBase)
    (fx : List Effect) (hb : GameControllerBase.new device os = (some s, fx))
    (h : signature ≠ s.getName)
    (hfit : ("Device " ++ device ++ ":" ++ s.getName ++ " is not a " ++ signature ++
      " controller").utf8ByteSize < 256) :
    new device os =
      (Construction.threw
        ("Device " ++ device ++ ":" ++ s.getName ++ " is not a " ++ signature ++ " controller")
        { s with _fd := -1 },
       fx ++ (if s._fd ≠ -1 then [Effect.sysClose s._fd] else [])) := by
  have hle : ("Device " ++ device ++ ":" ++ s.getName ++ " is not a " ++ signature ++
      " controller").utf8ByteSize + 1 ≤ ERR_LEN := by
    unfold ERR_LEN; omega
  simp only [new, hb]
  rw [if_pos h]
  simp only [GameControllerBase.cleanup, sprintfErr, GameControllerBase.getName] at hle ⊢
  rw [if_pos hle]

theorem new_of_mismatch_overflow (device : String) (os : DeviceEnv) (s : GameControllerBase)
    (fx : List Effect) (hb : GameControllerBase.new device os = (some s, fx))
    (h : signature ≠ s.getName)
    (hbig : 256 ≤ ("Device " ++ device ++ ":" ++ s.getName ++ " is not a " ++ signature ++
      " controller").utf8ByteSize) :
    new device os =
      (Construction.undefined,
       fx ++ (if s._fd ≠ -1 then [Effect.sysClose s._fd] else [])) := by
  have hle : ¬ ("Device " ++ device ++ ":" ++ s.getName ++ " is not a " ++ signature ++
      " controller").utf8ByteSize + 1 ≤ ERR_LEN := by
    unfold ERR_LEN; omega
  simp only [new, hb]
  rw [if_pos h]
  simp only [GameControllerBase.cleanup, sprintfErr, GameControllerBase.getName] at hle ⊢
  rw [if_neg hle]

/-- The identity check on an opened device whose messages fit in `err`: a name other
    than the signature makes the constructor throw with `_fd` = -1 after closing the
    descriptor once; the signature itself makes it construct the object on the opened
    descriptor without closing anything. -/
theorem new_identity_check (device : String) (os : DeviceEnv) (ho : os.openResult ≠ -1) :
    (os.nameResult.getD "Unknown" ≠ signature →
      ("Device " ++ device ++ ":" ++ os.nameResult.getD "Unknown" ++ " is not a " ++
        signature ++ " controller").utf8ByteSize < 256 →
      (new device os).1 =
        Construction.threw
          ("Device " ++ device ++ ":" ++ os.nameResult.getD "Unknown" ++ " is not a " ++
            signature ++ " controller")
          ⟨device, os.nameResult.getD "Unknown", -1, os.axesResult.getD 0 % 256,
            os.buttonsResult.getD 0 % 256, os.bufferGarbage⟩ ∧
      closed (new device os).2 = [os.openResult]) ∧
    (os.nameResult.getD "Unknown" = signature →
      (new device os).1 =
        Construction.constructed
          ⟨device, signature, os.openResult, os.axesResult.getD 0 % 256,
            os.buttonsResult.getD 0 % 256, os.bufferGarbage⟩ ∧
      closed (new device os).2 = []) := by
  have hb := base_new_of_opened device os ho
  constructor
  · intro hne hfit
    rw [new_of_mismatch device os _ _ hb (fun h => hne h.symm) hfit]
    simp [ho, closed, closed_append, GameControllerBase.getName]
  · intro heq
    rw [new_of_match device os _ _ hb heq.symm]
    simp [heq, closed]

/-- An object of `LogitechF710` is only ever constructed on an opened descriptor. -/
theorem constructed_is_opened (device : String) (os : DeviceEnv) (self : GameControllerBase)
    (hc : (new device os).1 = Construction.constructed self) :
    os.openResult ≠ -1 ∧ self._fd = os.openResult ∧ self.getName = signature := by
  by_cases ho : os.openResult = -1
  · exfalso
    unfold new GameControllerBase.new at hc
    simp only [ho, if_true] at hc
    cases hs : sprintfErr ("Could not open game controller: " ++ device ++ "\n") with
    | none => simp [hs] at hc
    | some err =>
      simp only [hs, GameControllerBase.getName, GameControllerBase.cleanup] at hc
      rw [if_pos (by decide)] at hc
      split at hc <;> simp at hc
  · have hb := base_new_of_opened device os ho
    by_cases hm : signature = os.nameResult.getD "Unknown"
    · rw [new_of_match device os _ _ hb hm] at hc
      simp only [Construction.constructed.injEq] at hc
      rw [← hc]
      exact ⟨ho, rfl, hm.symm⟩
    · exfalso
      simp only [new, hb, GameControllerBase.getName, GameControllerBase.cleanup] at hc
      rw [if_pos hm] at hc
      split at hc <;> simp at hc

set_option maxRecDepth 100000 in
/-- C4: on an opened device that reports `Generic Pad`, reached through a path of 204
    bytes, the text of the mismatch error is 265 bytes long: after `cleanup()` has closed
    the descriptor, `sprintf` writes behind the end of `err` and no `throw` is
    guaranteed.  Through the path `/dev/input/js0` the same device makes the constructor
    throw with `_fd` = -1, and a device reporting the signature is constructed. -/
theorem C4_mismatch_message_overflows :
    (deepPath 95).utf8ByteSize = 204 ∧
    ("Device " ++ deepPath 95 ++ ":" ++ "Generic Pad" ++ " is not a " ++ signature ++
      " controller").utf8ByteSize = 265 ∧
    new (deepPath 95) ⟨3, some "Generic Pad", some 8, some 11, []⟩ =
      (Construction.undefined,
       [Effect.sysOpen (deepPath 95), Effect.ioctlName 3, Effect.ioctlAxes 3,
        Effect.ioctlButtons 3, Effect.sysClose 3]) ∧
    (new "/dev/input/js0" ⟨3, some "Generic Pad", some 8, some 11, []⟩).1 =
      Construction.threw
        "Device /dev/input/js0:Generic Pad is not a Logitech Gamepad F710 controller"
        ⟨"/dev/input/js0", "Generic Pad", -1, 8, 11, []⟩ ∧
    (new "/dev/input/js0" ⟨3, some "Logitech Gamepad F710", some 8, some 11, []⟩).1 =
      Construction.constructed ⟨"/dev/input/js0", "Logitech Gamepad F710", 3, 8, 11, []⟩ := by
  decide

end LogitechF710

/-! ## The decode loop against a sequence of reads -/

namespace LogitechF710

/-- C5: when the reads before it succeeded, the first read that returns a negative `int`
    makes `eventLoop` return: the count computed from it is negative, the loop has issued
    no read after it, and everything printed is the decoding of the events the earlier
    reads delivered, whatever reads would have followed. -/
theorem C5_negative_read_stops (s : GameControllerBase) (pre : List ReadResult)
    (bad : ReadResult) (post : List ReadResult)
    (hpre : ∀ r ∈ pre, r.delivered) (hbad : bad.failed) :
    eventCount bad.bytes < 0 ∧
    (eventLoop s (pre ++ bad :: post)).status = LoopStatus.returned ∧
    printed (eventLoop s (pre ++ bad :: post)).trace = decode (arrivals pre) ∧
    readsIssued (eventLoop s (pre ++ bad :: post)).trace = pre.length + 1 := by
  obtain ⟨h1, h2⟩ := eventLoop_failed pre bad post s hpre hbad
  refine ⟨eventCount_neg bad.bytes hbad.1 hbad.2, h2, ?_, ?_⟩
  · rw [h1, printed_append, printed_rounds]
    simp [printed]
  · rw [h1, readsIssued_append, readsIssued_rounds]
    simp [readsIssued]

/-- C5, at a read of two events followed by a read returning -1 and a read of one event. -/
theorem C5_negative_read_stops_witness :
    eventCount (-1) < 0 ∧
    (eventLoop ⟨"/dev/input/js0", "Logitech Gamepad F710", 3, 8, 11, []⟩
      ([⟨16, [⟨0, 1, 1, 0⟩, ⟨0, 5, 2, 1⟩]⟩] ++ ⟨-1, []⟩ :: [⟨8, [⟨0, 0, 1, 0⟩]⟩])).status =
        LoopStatus.returned ∧
    printed (eventLoop ⟨"/dev/input/js0", "Logitech Gamepad F710", 3, 8, 11, []⟩
      ([⟨16, [⟨0, 1, 1, 0⟩, ⟨0, 5, 2, 1⟩]⟩] ++ ⟨-1, []⟩ :: [⟨8, [⟨0, 0, 1, 0⟩]⟩])).trace =
        ["A - Green pressed\n", "Left Stick-Y value 5\n"] ∧
    readsIssued (eventLoop ⟨"/dev/input/js0", "Logitech Gamepad F710", 3, 8, 11, []⟩
      ([⟨16, [⟨0, 1, 1, 0⟩, ⟨0, 5, 2, 1⟩]⟩] ++ ⟨-1, []⟩ :: [⟨8, [⟨0, 0, 1, 0⟩]⟩])).trace = 2 :=
  C5_negative_read_stops ⟨"/dev/input/js0", "Logitech Gamepad F710", 3, 8, 11, []⟩
    [⟨16, [⟨0, 1, 1, 0⟩, ⟨0, 5, 2, 1⟩]⟩] ⟨-1, []⟩ [⟨8, [⟨0, 0, 1, 0⟩]⟩]
    (by decide) (by decide)

/-- C6: when every read succeeds, the effects of `eventLoop` are, read after read, the
    `read` call followed by the texts of the events it delivered, each chunk complete
    before the next `read`; what is printed is the decoding of the chunks laid end to
    end, and decoding distributes over concatenation. -/
theorem C6_order_preserved (s : GameControllerBase) (reads : List ReadResult)
    (h : ∀ r ∈ reads, r.delivered) :
    (eventLoop s reads).trace = rounds s._fd reads ++ [Effect.sysRead s._fd] ∧
    printed (eventLoop s reads).trace = decode (arrivals reads) ∧
    (∀ xs ys : List ReadResult, arrivals (xs ++ ys) = arrivals xs ++ arrivals ys) ∧
    (∀ xs ys : List js_event, decode (xs ++ ys) = decode xs ++ decode ys) ∧
    (∀ (e : js_event) (es : List js_event), decode (e :: es) = switchBody e ++ decode es) := by
  obtain ⟨h1, _, _⟩ := eventLoop_delivered reads s h
  refine ⟨h1, ?_, arrivals_append, decode_append, fun _ _ => rfl⟩
  rw [h1, printed_append, printed_rounds]
  simp [printed]

/-- C6, at a read of two events, an empty read and a read of one event. -/
theorem C6_order_preserved_witness :
    (eventLoop ⟨"/dev/input/js0", "Logitech Gamepad F710", 3, 8, 11, []⟩
      [⟨16, [⟨0, 1, 1, 0⟩, ⟨0, 5, 2, 1⟩]⟩, ⟨0, []⟩, ⟨8, [⟨0, 0, 1, 0⟩]⟩]).trace =
      [Effect.sysRead 3, Effect.printf "A - Green pressed\n",
       Effect.printf "Left Stick-Y value 5\n", Effect.sysRead 3, Effect.sysRead 3,
       Effect.printf "A - Green released\n", Effect.sysRead 3] :=
  (C6_order_preserved ⟨"/dev/input/js0", "Logitech Gamepad F710", 3, 8, 11, []⟩
    [⟨16, [⟨0, 1, 1, 0⟩, ⟨0, 5, 2, 1⟩]⟩, ⟨0, []⟩, ⟨8, [⟨0, 0, 1, 0⟩]⟩] (by decide)).1

/-- C7: an event whose type is neither `JS_EVENT_BUTTON` nor `JS_EVENT_AXIS` prints
    exactly `Default <type>`, whatever its number and value and whatever the tables
    hold, and the loop goes on to its next read. -/
theorem C7_other_types (bc : EnumMap String) (ac : EnumMap AxisConfig) (e : js_event)
    (hb : e.type ≠ JS_EVENT_BUTTON) (ha : e.type ≠ JS_EVENT_AXIS) :
    switchBodyWith bc ac e = ["Default " ++ toString e.type ++ "\n"] ∧
    ∀ s : GameControllerBase,
      printed (eventLoop s [single e]).trace = ["Default " ++ toString e.type ++ "\n"] ∧
      (eventLoop s [single e]).status = LoopStatus.blocked := by
  have key : ∀ bc ac, switchBodyWith bc ac e = ["Default " ++ toString e.type ++ "\n"] := by
    intro bc ac
    simp [switchBodyWith, hb, ha, fmtU]
  refine ⟨key bc ac, fun s => ?_⟩
  obtain ⟨h1, h2⟩ := eventLoop_single s e
  exact ⟨by rw [h1]; exact key _ _, h2⟩

/-- C7, at the types 0x81, 0x82 and 0x80. -/
theorem C7_other_types_witness :
    switchBody ⟨0, 1, 0x81, 0⟩ = ["Default 129\n"] ∧
    switchBody ⟨0, -7, 0x82, 2⟩ = ["Default 130\n"] ∧
    switchBody ⟨0, 0, 0x80, 200⟩ = ["Default 128\n"] :=
  ⟨(C7_other_types buttonConfig axisConfig ⟨0, 1, 0x81, 0⟩ (by decide) (by decide)).1,
   (C7_other_types buttonConfig axisConfig ⟨0, -7, 0x82, 2⟩ (by decide) (by decide)).1,
   (C7_other_types buttonConfig axisConfig ⟨0, 0, 0x80, 200⟩ (by decide) (by decide)).1⟩

end LogitechF710

/-! ## The count of events and the queue of `waitForEvent` -/

namespace GameControllerBase

theorem waitForEvent_forLoop_data (xs : List js_event) :
    ∀ (pre rest : List js_event) (q : EventQueue),
      waitForEvent.forLoop (pre ++ xs ++ rest) xs.length pre.length q = some (q ++ xs) := by
  induction xs with
  | nil => intro pre rest q; simp [waitForEvent.forLoop]
  | cons x xs ih =>
    intro pre rest q
    have hget : (pre ++ x :: xs ++ rest).get? pre.length = some x := by
      rw [List.append_assoc, List.get?_eq_getElem?, List.getElem?_append_right (le_refl _)]
      simp
    have hstep := ih (pre ++ [x]) rest (q ++ [x])
    simp only [List.length_append, List.length_singleton, List.append_assoc,
      List.singleton_append] at hstep
    simp only [waitForEvent.forLoop, List.length_cons, hget, EventQueue.push]
    simpa [List.append_assoc] using hstep

theorem waitForEvent_delivered (s : GameControllerBase) (q : EventQueue) (r : ReadResult)
    (h : r.delivered) :
    s.waitForEvent q r =
      some ((r.data.length : Int), q ++ r.data,
        { s with _eventBuffer := r.data ++ s._eventBuffer.drop r.data.length }) := by
  have hloop := waitForEvent_forLoop_data r.data [] (s._eventBuffer.drop r.data.length) q
  simp only [List.nil_append, List.length_nil] at hloop
  simp [waitForEvent, sysRead, eventCount_delivered r h, hloop]

/-- C8: for a read returning `b` bytes with 0 ≤ b ≤ 800, the count returned by
    `readEvents` and by `waitForEvent` is the floor of b / 8: the number of complete
    records, 0 when b < 8, and at most 100. -/
theorem C8_count_is_floor (s : GameControllerBase) (q : EventQueue) (r : ReadResult)
    (h : r.delivered) :
    (s.readEvents r).1.1 = r.bytes / 8 ∧
    (s.waitForEvent q r).map (fun res => res.1) = some (r.bytes / 8) ∧
    8 * (r.bytes / 8) ≤ r.bytes ∧ r.bytes < 8 * (r.bytes / 8) + 8 ∧
    (r.bytes < 8 → r.bytes / 8 = 0) ∧
    0 ≤ r.bytes / 8 ∧ r.bytes / 8 ≤ 100 := by
  have hd := h
  unfold ReadResult.delivered SIZEOF_EVENT_BUFFER EVENT_BUFFER_LEN SIZEOF_JS_EVENT at hd
  obtain ⟨h0, h1, h2⟩ := hd
  have hlen : (r.data.length : Int) = r.bytes / 8 := by rw [h2]; norm_num
  refine ⟨?_, ?_, by omega, by omega, by omega, by omega, by omega⟩
  · rw [LogitechF710.readEvents_delivered s r h, hlen]
  · rw [waitForEvent_delivered s q r h, hlen]
    rfl

/-- C8, at reads returning 0, 7, 23 and 800 bytes. -/
theorem C8_count_is_floor_witness :
    (readEvents ⟨"/dev/input/js0", "", 3, 0, 0, []⟩ ⟨0, []⟩).1.1 = 0 ∧
    (readEvents ⟨"/dev/input/js0", "", 3, 0, 0, []⟩ ⟨7, []⟩).1.1 = 0 ∧
    (waitForEvent ⟨"/dev/input/js0", "", 3, 0, 0, []⟩ []
      ⟨23, [⟨0, 1, 1, 0⟩, ⟨0, 0, 1, 0⟩]⟩).map (fun res => res.1) = some 2 ∧
    (readEvents ⟨"/dev/input/js0", "", 3, 0, 0, []⟩
      ⟨800, List.replicate 100 ⟨0, 1, 1, 0⟩⟩).1.1 = 100 :=
  ⟨(C8_count_is_floor ⟨"/dev/input/js0", "", 3, 0, 0, []⟩ [] ⟨0, []⟩ (by decide)).1,
   (C8_count_is_floor ⟨"/dev/input/js0", "", 3, 0, 0, []⟩ [] ⟨7, []⟩ (by decide)).1,
   (C8_count_is_floor ⟨"/dev/input/js0", "", 3, 0, 0, []⟩ []
      ⟨23, [⟨0, 1, 1, 0⟩, ⟨0, 0, 1, 0⟩]⟩ (by decide)).2.1,
   (C8_count_is_floor ⟨"/dev/input/js0", "", 3, 0, 0, []⟩ []
      ⟨800, List.replicate 100 ⟨0, 1, 1, 0⟩⟩ (by decide)).1⟩

/-- C9: for a read that delivers the complete events e1..en, `waitForEvent` returns n
    and leaves the queue equal to its previous contents followed by e1..en in that order;
    when n = 0 the queue is unchanged. -/
theorem C9_queue_appended (s : GameControllerBase) (q : EventQueue) (r : ReadResult)
    (h : r.delivered) :
    s.waitForEvent q r =
      some ((r.data.length : Int), q ++ r.data,
        { s with _eventBuffer := r.data ++ s._eventBuffer.drop r.data.length }) ∧
    (r.data = [] → (s.waitForEvent q r).map (fun res => (res.1, res.2.1)) = some (0, q)) := by
  refine ⟨waitForEvent_delivered s q r h, fun hnil => ?_⟩
  rw [waitForEvent_delivered s q r h, hnil]
  simp

/-- C9, at a queue holding one event and a read delivering two, and at an empty read. -/
theorem C9_queue_appended_witness :
    (waitForEvent ⟨"/dev/input/js0", "", 3, 0, 0, [⟨9, 9, 9, 9⟩, ⟨8, 8, 8, 8⟩, ⟨7, 7, 7, 7⟩]⟩
      [⟨1, 0, 2, 4⟩] ⟨16, [⟨2, 1, 1, 0⟩, ⟨3, 0, 1, 0⟩]⟩) =
      some (2, [⟨1, 0, 2, 4⟩, ⟨2, 1, 1, 0⟩, ⟨3, 0, 1, 0⟩],
        ⟨"/dev/input/js0", "", 3, 0, 0, [⟨2, 1, 1, 0⟩, ⟨3, 0, 1, 0⟩, ⟨7, 7, 7, 7⟩]⟩) ∧
    (waitForEvent ⟨"/dev/input/js0", "", 3, 0, 0, [⟨9, 9, 9, 9⟩]⟩
      [⟨1, 0, 2, 4⟩] ⟨0, []⟩).map (fun res => (res.1, res.2.1)) = some (0, [⟨1, 0, 2, 4⟩]) :=
  ⟨(C9_queue_appended
      ⟨"/dev/input/js0", "", 3, 0, 0, [⟨9, 9, 9, 9⟩, ⟨8, 8, 8, 8⟩, ⟨7, 7, 7, 7⟩]⟩
      [⟨1, 0, 2, 4⟩] ⟨16, [⟨2, 1, 1, 0⟩, ⟨3, 0, 1, 0⟩]⟩ (by decide)).1,
   (C9_queue_appended ⟨"/dev/input/js0", "", 3, 0, 0, [⟨9, 9, 9, 9⟩]⟩
      [⟨1, 0, 2, 4⟩] ⟨0, []⟩ (by decide)).2 rfl⟩

/-- C10: for a read returning a negative `int`, `waitForEvent` returns the negative
    number floor(bytes / 8) and leaves the queue as it was, while every successful read
    makes it return a number that is not negative. -/
theorem C10_negative_count (s : GameControllerBase) (q : EventQueue) (r : ReadResult)
    (h : r.failed) :
    s.waitForEvent q r =
      some (eventCount r.bytes, q,
        { s with _eventBuffer := r.data ++ s._eventBuffer.drop r.data.length }) ∧
    eventCount r.bytes < 0 ∧
    eventCount r.bytes = r.bytes / 8 ∧
    (∀ r2 : ReadResult, r2.delivered →
      (s.waitForEvent q r2).map (fun res => decide (0 ≤ res.1)) = some true) := by
  have hneg : eventCount r.bytes < 0 := eventCount_neg r.bytes h.1 h.2
  have hz : (eventCount r.bytes).toNat = 0 := by omega
  refine ⟨?_, hneg, eventCount_eq_div r.bytes h.1, fun r2 h2 => ?_⟩
  · simp [waitForEvent, sysRead, hz, waitForEvent.forLoop]
  · rw [waitForEvent_delivered s q r2 h2]
    simp

/-- C10, at reads returning -1 and the least `int`. -/
theorem C10_negative_count_witness :
    (waitForEvent ⟨"/dev/input/js0", "", -1, 0, 0, [⟨9, 9, 9, 9⟩]⟩ [⟨1, 0, 2, 4⟩] ⟨-1, []⟩) =
      some (-1, [⟨1, 0, 2, 4⟩], ⟨"/dev/input/js0", "", -1, 0, 0, [⟨9, 9, 9, 9⟩]⟩) ∧
    eventCount (-2147483648) = -268435456 :=
  ⟨(C10_negative_count ⟨"/dev/input/js0", "", -1, 0, 0, [⟨9, 9, 9, 9⟩]⟩ [⟨1, 0, 2, 4⟩]
      ⟨-1, []⟩ (by decide)).1,
   (C10_negative_count ⟨"/dev/input/js0", "", -1, 0, 0, [⟨9, 9, 9, 9⟩]⟩ [⟨1, 0, 2, 4⟩]
      ⟨-2147483648, []⟩ (by decide)).2.2.1⟩

/-! ## Closing the handle -/

/-- C11: after `cleanup()` the descriptor member is -1; a second `cleanup()` changes
    nothing and closes nothing; over both calls the descriptor the handle held is passed
    to `close` once when it was open and never when it was -1; on a handle whose
    descriptor is -1 a `cleanup()` changes nothing and closes nothing. -/
theorem C11_cleanup_idempotent (s : GameControllerBase) :
    s.cleanup.1._fd = -1 ∧
    s.cleanup.1 = { s with _fd := -1 } ∧
    s.cleanup.1.cleanup = (s.cleanup.1, []) ∧
    closed (s.cleanup.2 ++ s.cleanup.1.cleanup.2) = (if s._fd = -1 then [] else [s._fd]) ∧
    s.cleanup.2 = (if s._fd = -1 then [] else [Effect.sysClose s._fd]) ∧
    ({ s with _fd := -1 } : GameControllerBase).cleanup = ({ s with _fd := -1 }, []) := by
  refine ⟨rfl, rfl, ?_, ?_, ?_, ?_⟩
  · simp [cleanup]
  · by_cases h : s._fd = -1 <;> simp [cleanup, h, closed]
  · by_cases h : s._fd = -1 <;> simp [cleanup, h]
  · simp [cleanup]

theorem waitForEvent_failed (s : GameControllerBase) (q : EventQueue) (r : ReadResult)
    (h : r.failed) :
    s.waitForEvent q r =
      some (eventCount r.bytes, q,
        { s with _eventBuffer := r.data ++ s._eventBuffer.drop r.data.length }) := by
  have hneg : eventCount r.bytes < 0 := eventCount_neg r.bytes h.1 h.2
  have hz : (eventCount r.bytes).toNat = 0 := by omega
  simp [waitForEvent, sysRead, hz, waitForEvent.forLoop]

/-- The handle left by a failed `open` whose message fits in `err`: `_fd` = -1, both
    counts 0, the name empty, no `ioctl` issued; `cleanup()` changes nothing and closes
    nothing, and `waitForEvent` on a failing read returns a negative count and leaves the
    queue as it was. -/
theorem open_failure_handle (device : String) (os : DeviceEnv) (q : EventQueue)
    (r : ReadResult) (hopen : os.openResult = -1)
    (hfit : ("Could not open game controller: " ++ device ++ "\n").utf8ByteSize < 256)
    (hread : r.failed) :
    new device os =
      (some ⟨device, "", -1, 0, 0, os.bufferGarbage⟩,
       [Effect.sysOpen device,
        Effect.perror ("Could not open game controller: " ++ device ++ "\n")]) ∧
    cleanup ⟨device, "", -1, 0, 0, os.bufferGarbage⟩ =
      (⟨device, "", -1, 0, 0, os.bufferGarbage⟩, []) ∧
    (waitForEvent ⟨device, "", -1, 0, 0, os.bufferGarbage⟩ q r).map
      (fun res => (res.1, res.2.1)) = some (eventCount r.bytes, q) ∧
    eventCount r.bytes < 0 := by
  refine ⟨LogitechF710.base_new_of_open_failure device os hopen hfit, ?_, ?_,
    eventCount_neg r.bytes hread.1 hread.2⟩
  · simp [cleanup]
  · rw [waitForEvent_failed _ q r hread]
    rfl

set_option maxRecDepth 100000 in
/-- C12: for a path of 234 bytes whose `open` fails, the text of the open failure is 267
    bytes long: `sprintf` writes behind the end of `err` and the constructor leaves no
    handle at all, its only effect so far being the `open` call.  For the path
    `/dev/input/js9` the constructor leaves `_fd` = -1, both counts 0 and the name empty
    with no `ioctl` issued, and on that handle `cleanup()` does nothing and `waitForEvent`
    on a read returning -1 returns -1 and leaves the queue as it was. -/
theorem C12_open_failure_message_overflows :
    (deepPath 110).utf8ByteSize = 234 ∧
    ("Could not open game controller: " ++ deepPath 110 ++ "\n").utf8ByteSize = 267 ∧
    new (deepPath 110) ⟨-1, none, none, none, []⟩ = (none, [Effect.sysOpen (deepPath 110)]) ∧
    new "/dev/input/js9" ⟨-1, none, none, none, []⟩ =
      (some ⟨"/dev/input/js9", "", -1, 0, 0, []⟩,
       [Effect.sysOpen "/dev/input/js9",
        Effect.perror "Could not open game controller: /dev/input/js9\n"]) ∧
    cleanup ⟨"/dev/input/js9", "", -1, 0, 0, []⟩ = (⟨"/dev/input/js9", "", -1, 0, 0, []⟩, []) ∧
    (waitForEvent ⟨"/dev/input/js9", "", -1, 0, 0, []⟩ [⟨1, 0, 2, 4⟩] ⟨-1, []⟩).map
      (fun res => (res.1, res.2.1)) = some (-1, [⟨1, 0, 2, 4⟩]) := by
  decide

/-! ## The counts returned by the getters -/

theorem base_new_counts (device : String) (os : DeviceEnv) (a b : Nat)
    (ho : os.openResult ≠ -1) (ha : os.axesResult = some a) (hb : os.buttonsResult = some b) :
    (new device os).1.map (fun s => (s._axisCount, s._buttonCount)) =
      some (a % 256, b % 256) := by
  rw [LogitechF710.base_new_of_opened device os ho, ha, hb]
  rfl

/-- Where plain `char` is unsigned, and for counts below 128 everywhere, the getters
    return the count the device reported. -/
theorem getters_exact (signedChar : Bool) (device : String) (os : DeviceEnv) (a b : Nat)
    (ho : os.openResult ≠ -1) (ha : os.axesResult = some a) (hb : os.buttonsResult = some b)
    (ha8 : a < 256) (hb8 : b < 256)
    (hs : signedChar = false ∨ (a < 128 ∧ b < 128)) :
    (new device os).1.map (getAxisCount signedChar) = some a ∧
    (new device os).1.map (getButtonCount signedChar) = some b := by
  rw [LogitechF710.base_new_of_opened device os ho, ha, hb]
  simp only [Option.map_some', Option.getD_some, Option.some.injEq]
  unfold getAxisCount getButtonCount toUInt charValue
  simp only
  rcases hs with hs | ⟨hs1, hs2⟩
  · subst hs
    simp only [Bool.false_eq_true, false_and, if_false]
    constructor <;> omega
  · constructor <;> split <;> omega

/-- C13: where plain `char` is signed, a device reporting 200 buttons makes
    `getButtonCount()` return 4294967240, and one reporting 255 axes makes
    `getAxisCount()` return 4294967295; a device reporting 128 gives 4294967168. -/
theorem C13_counts_sign_extended :
    (new "/dev/input/js0" ⟨3, some "Logitech Gamepad F710", some 8, some 200, []⟩).1.map
      (getButtonCount true) = some 4294967240 ∧
    (new "/dev/input/js0" ⟨3, some "Logitech Gamepad F710", some 255, some 11, []⟩).1.map
      (getAxisCount true) = some 4294967295 ∧
    (new "/dev/input/js0" ⟨3, some "Logitech Gamepad F710", some 8, some 128, []⟩).1.map
      (getButtonCount true) = some 4294967168 ∧
    (new "/dev/input/js0" ⟨3, some "Logitech Gamepad F710", some 8, some 127, []⟩).1.map
      (getButtonCount true) = some 127 := by
  decide

end GameControllerBase


namespace LogitechF710

theorem buttonConfig_count (k : Nat) :
    buttonConfig.count k = if k < BUTTON_COUNT then 1 else 0 := by
  unfold BUTTON_COUNT
  by_cases h : k < 11
  · rw [if_pos h]
    interval_cases k <;> rfl
  · rw [if_neg h]
    have hk : ∀ j, j < 11 → (k == j) = false := by
      intro j hj
      simp
      omega
    simp [EnumMap.count, buttonConfig, List.lookup, hk]

theorem axisConfig_count (k : Nat) :
    axisConfig.count k = if k < AXIS_COUNT then 1 else 0 := by
  unfold AXIS_COUNT
  by_cases h : k < 8
  · rw [if_pos h]
    interval_cases k <;> rfl
  · rw [if_neg h]
    have hk : ∀ j, j < 8 → (k == j) = false := by
      intro j hj
      simp
      omega
    simp [EnumMap.count, axisConfig, List.lookup, hk]

theorem switchBody_one_line (e : js_event) : ∃ body, switchBody e = [body ++ "\n"] := by
  unfold switchBody switchBodyWith
  by_cases hb : e.type = JS_EVENT_BUTTON
  · rw [if_pos hb]
    by_cases hn : (e.number : Int) < 0 ∨ e.number ≥ BUTTON_COUNT
    · rw [if_pos hn]
      exact ⟨"Button " ++ fmtU e.number ++ " " ++ pressedOrReleased e.value ++ " undefined", by
        simp [String.append_assoc]⟩
    · rw [if_neg hn]
      have hlt : e.number < BUTTON_COUNT := by omega
      have hc : buttonConfig.count e.number ≠ 0 := by
        rw [buttonConfig_count, if_pos hlt]; decide
      rw [if_pos hc]
      exact ⟨_, rfl⟩
  · rw [if_neg hb]
    by_cases ha : e.type = JS_EVENT_AXIS
    · rw [if_pos ha]
      by_cases hn : (e.number : Int) < 0 ∨ e.number ≥ AXIS_COUNT
      · rw [if_pos hn]
        exact ⟨"Axis " ++ fmtU e.number ++ " ", by simp [String.append_assoc]⟩
      · rw [if_neg hn]
        have hlt : e.number < AXIS_COUNT := by omega
        have hc : axisConfig.count e.number ≠ 0 := by
          rw [axisConfig_count, if_pos hlt]; decide
        rw [if_pos hc]
        exact ⟨_, rfl⟩
    · rw [if_neg ha]
      exact ⟨_, rfl⟩

theorem decode_length (es : List js_event) : (decode es).length = es.length := by
  induction es with
  | nil => rfl
  | cons e es ih =>
    obtain ⟨body, hb⟩ := switchBody_one_line e
    simp [decode, hb, ih]

theorem subscriptMut_of_count {α : Type} [Inhabited α] (m : EnumMap α) (k : Nat)
    (h : m.count k ≠ 0) : m.subscriptMut k = (m.subscript k, m) := by
  unfold EnumMap.count at h
  unfold EnumMap.subscriptMut EnumMap.subscript
  cases hl : m.lookup k with
  | none => simp [hl] at h
  | some v => simp

theorem switchBodyMut_eq (bc : EnumMap String) (ac : EnumMap AxisConfig) (e : js_event) :
    switchBodyMut bc ac e = (switchBodyWith bc ac e, bc, ac) := by
  unfold switchBodyMut switchBodyWith
  by_cases hb : e.type = JS_EVENT_BUTTON
  · simp only [if_pos hb]
    by_cases hn : (e.number : Int) < 0 ∨ e.number ≥ BUTTON_COUNT
    · simp only [if_pos hn]
    · simp only [if_neg hn]
      by_cases hc : bc.count e.number ≠ 0
      · simp only [if_pos hc, subscriptMut_of_count bc e.number hc]
      · simp only [if_neg hc]
  · simp only [if_neg hb]
    by_cases ha : e.type = JS_EVENT_AXIS
    · simp only [if_pos ha]
      by_cases hn : (e.number : Int) < 0 ∨ e.number ≥ AXIS_COUNT
      · simp only [if_pos hn]
      · simp only [if_neg hn]
        by_cases hc : ac.count e.number ≠ 0
        · simp only [if_pos hc, subscriptMut_of_count ac e.number hc]
        · simp only [if_neg hc]
    · simp only [if_neg ha]

theorem reads_split (reads : List ReadResult) (h : ∀ r ∈ reads, r.delivered ∨ r.failed) :
    (∀ r ∈ reads, r.delivered) ∨
    ∃ pre bad post, reads = pre ++ bad :: post ∧ (∀ r ∈ pre, r.delivered) ∧ bad.failed := by
  induction reads with
  | nil => left; simp
  | cons r rs ih =>
    have hrs : ∀ x ∈ rs, x.delivered ∨ x.failed := fun x hx => h x (List.mem_cons_of_mem _ hx)
    rcases h r (List.mem_cons_self _ _) with hr | hr
    · rcases ih hrs with hall | ⟨pre, bad, post, heq, hpre, hbad⟩
      · left
        intro x hx
        rcases List.mem_cons.mp hx with hx | hx
        · rw [hx]; exact hr
        · exact hall x hx
      · right
        refine ⟨r :: pre, bad, post, by rw [heq]; rfl, ?_, hbad⟩
        intro x hx
        rcases List.mem_cons.mp hx with hx | hx
        · rw [hx]; exact hr
        · exact hpre x hx
    · right
      exact ⟨[], r, rs, rfl, by simp, hr⟩

theorem eventLoop_self (reads : List ReadResult) :
    ∀ s : GameControllerBase, ∃ buf, (eventLoop s reads).self = { s with _eventBuffer := buf } := by
  induction reads with
  | nil => intro s; exact ⟨s._eventBuffer, rfl⟩
  | cons r rs ih =>
    intro s
    obtain ⟨buf, hbuf⟩ := ih { s with _eventBuffer := r.data ++ s._eventBuffer.drop r.data.length }
    simp only [eventLoop, GameControllerBase.readEvents, sysRead]
    split
    · exact ⟨_, rfl⟩
    · split
      · exact ⟨buf, by rw [hbuf]⟩
      · exact ⟨_, rfl⟩

theorem arrivals_of_empty (reads : List ReadResult) (h : ∀ r ∈ reads, r.data = []) :
    arrivals reads = [] := by
  induction reads with
  | nil => rfl
  | cons r rs ih =>
    simp only [arrivals, h r (List.mem_cons_self _ _), List.nil_append]
    exact ih fun x hx => h x (List.mem_cons_of_mem _ hx)

/-! ## The loop runs until a read fails -/

/-- C14: when every read succeeds, `eventLoop` has not returned after consuming them: it
    has issued one read more than it was answered and is blocked inside it, and reads
    that deliver no event print nothing; when `eventLoop` has returned, the reads split
    into successful ones followed by a failed one, which is the last read it issued. -/
theorem C14_runs_until_failure (s : GameControllerBase) (reads : List ReadResult)
    (hwf : ∀ r ∈ reads, r.delivered ∨ r.failed) :
    ((∀ r ∈ reads, r.delivered) →
      (eventLoop s reads).status = LoopStatus.blocked ∧
      readsIssued (eventLoop s reads).trace = reads.length + 1 ∧
      ((∀ r ∈ reads, r.data = []) → printed (eventLoop s reads).trace = [])) ∧
    ((eventLoop s reads).status = LoopStatus.returned →
      ∃ pre bad post, reads = pre ++ bad :: post ∧ (∀ r ∈ pre, r.delivered) ∧
        bad.failed ∧ eventCount bad.bytes < 0 ∧
        readsIssued (eventLoop s reads).trace = pre.length + 1) := by
  constructor
  · intro hall
    obtain ⟨h1, h2, _⟩ := eventLoop_delivered reads s hall
    refine ⟨h2, ?_, fun hnil => ?_⟩
    · rw [h1, readsIssued_append, readsIssued_rounds]
      simp [readsIssued]
    · rw [h1, printed_append, printed_rounds]
      simp [arrivals_of_empty reads hnil, decode, printed]
  · intro hret
    rcases reads_split reads hwf with hall | ⟨pre, bad, post, heq, hpre, hbad⟩
    · obtain ⟨_, h2, _⟩ := eventLoop_delivered reads s hall
      rw [h2] at hret
      exact absurd hret (by decide)
    · refine ⟨pre, bad, post, heq, hpre, hbad, eventCount_neg bad.bytes hbad.1 hbad.2, ?_⟩
      rw [heq, (eventLoop_failed pre bad post s hpre hbad).1, readsIssued_append,
        readsIssued_rounds]
      simp [readsIssued]

/-- C14, at three successful reads, two of them delivering no event. -/
theorem C14_runs_until_failure_witness :
    (eventLoop ⟨"/dev/input/js0", "Logitech Gamepad F710", 3, 8, 11, []⟩
      [⟨0, []⟩, ⟨3, []⟩, ⟨8, [⟨0, 1, 1, 0⟩]⟩]).status = LoopStatus.blocked ∧
    readsIssued (eventLoop ⟨"/dev/input/js0", "Logitech Gamepad F710", 3, 8, 11, []⟩
      [⟨0, []⟩, ⟨3, []⟩, ⟨8, [⟨0, 1, 1, 0⟩]⟩]).trace = 4 ∧
    printed (eventLoop ⟨"/dev/input/js0", "Logitech Gamepad F710", 3, 8, 11, []⟩
      [⟨0, []⟩, ⟨7, []⟩]).trace = [] :=
  ⟨((C14_runs_until_failure ⟨"/dev/input/js0", "Logitech Gamepad F710", 3, 8, 11, []⟩
      [⟨0, []⟩, ⟨3, []⟩, ⟨8, [⟨0, 1, 1, 0⟩]⟩] (by decide)).1 (by decide)).1,
   ((C14_runs_until_failure ⟨"/dev/input/js0", "Logitech Gamepad F710", 3, 8, 11, []⟩
      [⟨0, []⟩, ⟨3, []⟩, ⟨8, [⟨0, 1, 1, 0⟩]⟩] (by decide)).1 (by decide)).2.1,
   ((C14_runs_until_failure ⟨"/dev/input/js0", "Logitech Gamepad F710", 3, 8, 11, []⟩
      [⟨0, []⟩, ⟨7, []⟩] (by decide)).1 (by decide)).2.2 (by decide)⟩

/-! ## Determinism of the decoding -/

/-- C15: two raw events with the same type, number and value print the same texts,
    whatever their timestamps, whatever handle runs the loop (its reported counts
    included) and whatever successful reads were consumed before; decoding an event
    leaves the two static tables as they were. -/
theorem C15_deterministic (e1 e2 : js_event) (ht : e1.type = e2.type)
    (hn : e1.number = e2.number) (hv : e1.value = e2.value) :
    switchBody e1 = switchBody e2 ∧
    (∀ (bc : EnumMap String) (ac : EnumMap AxisConfig),
      switchBodyMut bc ac e1 = (switchBodyWith bc ac e1, bc, ac)) ∧
    ∀ (s1 s2 : GameControllerBase) (pre1 pre2 : List ReadResult),
      (∀ r ∈ pre1, r.delivered) → (∀ r ∈ pre2, r.delivered) →
      printed (eventLoop s1 (pre1 ++ [single e1])).trace =
        decode (arrivals pre1) ++ switchBody e1 ∧
      printed (eventLoop s2 (pre2 ++ [single e2])).trace =
        decode (arrivals pre2) ++ switchBody e1 := by
  have heq : switchBody e1 = switchBody e2 := by
    unfold switchBody switchBodyWith
    rw [ht, hn, hv]
  have hrun : ∀ (s : GameControllerBase) (pre : List ReadResult) (e : js_event),
      (∀ r ∈ pre, r.delivered) →
      printed (eventLoop s (pre ++ [single e])).trace = decode (arrivals pre) ++ switchBody e := by
    intro s pre e hpre
    have hall : ∀ r ∈ pre ++ [single e], r.delivered := by
      intro r hr
      rcases List.mem_append.mp hr with hr | hr
      · exact hpre r hr
      · rw [List.mem_singleton.mp hr]; exact single_delivered e
    rw [(eventLoop_delivered _ s hall).1, printed_append, printed_rounds, arrivals_append,
      decode_append]
    simp [arrivals, single, decode, printed]
  refine ⟨heq, fun bc ac => switchBodyMut_eq bc ac e1, fun s1 s2 pre1 pre2 h1 h2 => ?_⟩
  exact ⟨hrun s1 pre1 e1 h1, by rw [heq]; exact hrun s2 pre2 e2 h2⟩

/-- C15, at two button events that differ in their timestamps only, decoded by handles
    that report different counts, one of them after an earlier read. -/
theorem C15_deterministic_witness :
    printed (eventLoop ⟨"/dev/input/js0", "Logitech Gamepad F710", 3, 8, 11, []⟩
      ([] ++ [single ⟨100, 1, 1, 4⟩])).trace = ["Left Trigger pressed\n"] ∧
    printed (eventLoop ⟨"/dev/input/js1", "Logitech Gamepad F710", 4, 2, 3, []⟩
      ([⟨8, [⟨7, -9, 2, 0⟩]⟩] ++ [single ⟨999, 1, 1, 4⟩])).trace =
        ["Left Stick-X value -9\n", "Left Trigger pressed\n"] :=
  ⟨((C15_deterministic ⟨100, 1, 1, 4⟩ ⟨999, 1, 1, 4⟩ rfl rfl rfl).2.2
      ⟨"/dev/input/js0", "Logitech Gamepad F710", 3, 8, 11, []⟩
      ⟨"/dev/input/js1", "Logitech Gamepad F710", 4, 2, 3, []⟩
      [] [⟨8, [⟨7, -9, 2, 0⟩]⟩] (by decide) (by decide)).1,
   ((C15_deterministic ⟨100, 1, 1, 4⟩ ⟨999, 1, 1, 4⟩ rfl rfl rfl).2.2
      ⟨"/dev/input/js0", "Logitech Gamepad F710", 3, 8, 11, []⟩
      ⟨"/dev/input/js1", "Logitech Gamepad F710", 4, 2, 3, []⟩
      [] [⟨8, [⟨7, -9, 2, 0⟩]⟩] (by decide) (by decide)).2⟩

/-! ## What the operations leave unchanged -/

/-- C16: `cleanup()` changes `_fd` only; `readEvents`, `waitForEvent` and `eventLoop`
    change the event buffer only (`waitForEvent` also its queue); so the device path, the
    name and the two counts that the getters return are the same after each of them as
    before, in particular after the handle is closed. -/
theorem C16_capabilities_fixed (signedChar : Bool) (s : GameControllerBase) (q : EventQueue)
    (r : ReadResult) (reads : List ReadResult) :
    s.cleanup.1 = { s with _fd := -1 } ∧
    (s.readEvents r).2 =
      { s with _eventBuffer := r.data ++ s._eventBuffer.drop r.data.length } ∧
    (r.delivered ∨ r.failed →
      ∃ n q1, s.waitForEvent q r =
        some (n, q1, { s with _eventBuffer := r.data ++ s._eventBuffer.drop r.data.length })) ∧
    (∃ buf, (eventLoop s reads).self = { s with _eventBuffer := buf }) ∧
    (s.cleanup.1.getDevice = s.getDevice ∧ s.cleanup.1.getName = s.getName ∧
      s.cleanup.1.getAxisCount signedChar = s.getAxisCount signedChar ∧
      s.cleanup.1.getButtonCount signedChar = s.getButtonCount signedChar) ∧
    ((s.readEvents r).2.getDevice = s.getDevice ∧ (s.readEvents r).2.getName = s.getName ∧
      (s.readEvents r).2.getAxisCount signedChar = s.getAxisCount signedChar ∧
      (s.readEvents r).2.getButtonCount signedChar = s.getButtonCount signedChar) ∧
    ((eventLoop s reads).self.getDevice = s.getDevice ∧
      (eventLoop s reads).self.getName = s.getName ∧
      (eventLoop s reads).self.getAxisCount signedChar = s.getAxisCount signedChar ∧
      (eventLoop s reads).self.getButtonCount signedChar = s.getButtonCount signedChar ∧
      (eventLoop s reads).self._fd = s._fd) := by
  obtain ⟨buf, hbuf⟩ := eventLoop_self reads s
  refine ⟨rfl, rfl, ?_, ⟨buf, hbuf⟩, ⟨rfl, rfl, rfl, rfl⟩, ⟨rfl, rfl, rfl, rfl⟩, ?_⟩
  · intro hr
    rcases hr with hr | hr
    · exact ⟨_, _, GameControllerBase.waitForEvent_delivered s q r hr⟩
    · exact ⟨_, _, GameControllerBase.waitForEvent_failed s q r hr⟩
  · rw [hbuf]
    exact ⟨rfl, rfl, rfl, rfl, rfl⟩

/-- C16, at a handle that is closed, read from through `waitForEvent`, and run through
    `eventLoop` until a read fails. -/
theorem C16_capabilities_fixed_witness :
    (GameControllerBase.cleanup ⟨"/dev/input/js0", "Logitech Gamepad F710", 3, 8, 11, []⟩).1 =
      ⟨"/dev/input/js0", "Logitech Gamepad F710", -1, 8, 11, []⟩ ∧
    (∃ n q1, GameControllerBase.waitForEvent
        ⟨"/dev/input/js0", "Logitech Gamepad F710", 3, 8, 11, [⟨9, 9, 9, 9⟩, ⟨7, 7, 7, 7⟩]⟩
        [] ⟨8, [⟨2, 1, 1, 0⟩]⟩ =
      some (n, q1,
        ⟨"/dev/input/js0", "Logitech Gamepad F710", 3, 8, 11, [⟨2, 1, 1, 0⟩, ⟨7, 7, 7, 7⟩]⟩)) :=
  ⟨(C16_capabilities_fixed true ⟨"/dev/input/js0", "Logitech Gamepad F710", 3, 8, 11, []⟩
      [] ⟨8, [⟨2, 1, 1, 0⟩]⟩ []).1,
   (C16_capabilities_fixed true
      ⟨"/dev/input/js0", "Logitech Gamepad F710", 3, 8, 11, [⟨9, 9, 9, 9⟩, ⟨7, 7, 7, 7⟩]⟩
      [] ⟨8, [⟨2, 1, 1, 0⟩]⟩ []).2.2.1 (Or.inl (by decide))⟩

/-! ## Totality of the shipped tables -/

/-- C17: `buttonConfig` has an entry exactly for the keys 0..10 and `axisConfig` exactly
    for the keys 0..7; every raw event, of any type, number and value, prints exactly one
    text, which ends in a newline; a sequence of n events prints n texts, and so does a
    run of `eventLoop` on a read delivering n events. -/
theorem C17_one_line_per_event (k : Nat) (e : js_event) (es : List js_event)
    (s : GameControllerBase) (r : ReadResult) (h : r.delivered) :
    buttonConfig.count k = (if k < BUTTON_COUNT then 1 else 0) ∧
    axisConfig.count k = (if k < AXIS_COUNT then 1 else 0) ∧
    (∃ body, switchBody e = [body ++ "\n"]) ∧
    (switchBody e).length = 1 ∧
    (decode es).length = es.length ∧
    (printed (eventLoop s [r]).trace).length = r.data.length := by
  refine ⟨buttonConfig_count k, axisConfig_count k, switchBody_one_line e, ?_,
    decode_length es, ?_⟩
  · obtain ⟨body, hb⟩ := switchBody_one_line e
    rw [hb]
    rfl
  · have hall : ∀ x ∈ [r], x.delivered := by
      intro x hx
      rw [List.mem_singleton.mp hx]
      exact h
    rw [(eventLoop_delivered [r] s hall).1, printed_append, printed_rounds]
    simp [arrivals, printed, decode_length]

/-- C17, at key 10 and key 11, an axis event, and a read delivering three events of
    three kinds. -/
theorem C17_one_line_per_event_witness :
    buttonConfig.count 10 = 1 ∧ buttonConfig.count 11 = 0 ∧
    axisConfig.count 7 = 1 ∧ axisConfig.count 8 = 0 ∧
    (printed (eventLoop ⟨"/dev/input/js0", "Logitech Gamepad F710", 3, 8, 11, []⟩
      [⟨24, [⟨0, 1, 1, 10⟩, ⟨0, 3, 2, 200⟩, ⟨0, 0, 0x81, 0⟩]⟩]).trace).length = 3 :=
  ⟨(C17_one_line_per_event 10 ⟨0, 0, 2, 7⟩ [] ⟨"", "", 3, 0, 0, []⟩ ⟨0, []⟩ (by decide)).1,
   (C17_one_line_per_event 11 ⟨0, 0, 2, 7⟩ [] ⟨"", "", 3, 0, 0, []⟩ ⟨0, []⟩ (by decide)).1,
   (C17_one_line_per_event 7 ⟨0, 0, 2, 7⟩ [] ⟨"", "", 3, 0, 0, []⟩ ⟨0, []⟩ (by decide)).2.1,
   (C17_one_line_per_event 8 ⟨0, 0, 2, 7⟩ [] ⟨"", "", 3, 0, 0, []⟩ ⟨0, []⟩ (by decide)).2.1,
   (C17_one_line_per_event 0 ⟨0, 0, 2, 7⟩ []
      ⟨"/dev/input/js0", "Logitech Gamepad F710", 3, 8, 11, []⟩
      ⟨24, [⟨0, 1, 1, 10⟩, ⟨0, 3, 2, 200⟩, ⟨0, 0, 0x81, 0⟩]⟩ (by decide)).2.2.2.2.2⟩

/-! ## Construction on a path that cannot be opened -/

/-- On a path whose `open` fails and whose two messages fit in `err`, the constructor
    of `LogitechF710` throws `std::invalid_argument`: the name held is empty and differs
    from the signature; at the throw `_fd` is -1, nothing was queried and nothing closed. -/
theorem unopened_throws (device : String) (os : DeviceEnv) (hopen : os.openResult = -1)
    (hfit1 : ("Could not open game controller: " ++ device ++ "\n").utf8ByteSize < 256)
    (hfit2 : ("Device " ++ device ++ ":" ++ "" ++ " is not a " ++ signature ++
      " controller").utf8ByteSize < 256) :
    new device os =
      (Construction.threw
        ("Device " ++ device ++ ":" ++ "" ++ " is not a " ++ signature ++ " controller")
        ⟨device, "", -1, 0, 0, os.bufferGarbage⟩,
       [Effect.sysOpen device,
        Effect.perror ("Could not open game controller: " ++ device ++ "\n")]) := by
  have hb := base_new_of_open_failure device os hopen hfit1
  have hne : signature ≠ "" := by decide
  rw [new_of_mismatch device os _ _ hb hne hfit2]
  simp [GameControllerBase.getName]

set_option maxRecDepth 100000 in
/-- C18: for a path of 234 bytes whose `open` fails, `sprintf` in the base constructor
    writes behind the end of `err` (the text is 267 bytes long) and no `throw` is
    guaranteed; for one of 214 bytes the base constructor returns and the mismatch text,
    264 bytes long, overflows `err` in the constructor of `LogitechF710`.  For the path
    `/dev/input/js9` the constructor throws `std::invalid_argument` with `_fd` = -1,
    nothing queried and nothing closed. -/
theorem C18_unopened_long_path_overflows :
    (deepPath 110).utf8ByteSize = 234 ∧
    ("Could not open game controller: " ++ deepPath 110 ++ "\n").utf8ByteSize = 267 ∧
    new (deepPath 110) ⟨-1, some "Logitech Gamepad F710", some 8, some 11, []⟩ =
      (Construction.undefined, [Effect.sysOpen (deepPath 110)]) ∧
    (deepPath 100).utf8ByteSize = 214 ∧
    ("Device " ++ deepPath 100 ++ ":" ++ "" ++ " is not a " ++ signature ++
      " controller").utf8ByteSize = 264 ∧
    new (deepPath 100) ⟨-1, some "Logitech Gamepad F710", some 8, some 11, []⟩ =
      (Construction.undefined,
       [Effect.sysOpen (deepPath 100),
        Effect.perror ("Could not open game controller: " ++ deepPath 100 ++ "\n")]) ∧
    new "/dev/input/js9" ⟨-1, some "Logitech Gamepad F710", some 8, some 11, []⟩ =
      (Construction.threw "Device /dev/input/js9: is not a Logitech Gamepad F710 controller"
        ⟨"/dev/input/js9", "", -1, 0, 0, []⟩,
       [Effect.sysOpen "/dev/input/js9",
        Effect.perror "Could not open game controller: /dev/input/js9\n"]) := by
  decide

end LogitechF710

end GameController
